import Mathlib

/-!
Verification of the InsightIQEngine multi-tenant data-source gateway.

The development shallowly embeds the relevant TypeScript modules:

* `server/middleware.ts` — `tenantIsolationMiddleware`, `getOrganizationIdFromRequest`,
  `roleCheckMiddleware`;
* `server/storage.ts` — the in-memory `MemStorage` lookups used by the middleware and routes;
* `server/routes.ts` — the organization-scoped data-source route handlers;
* `server/data-connectors.ts` — `testDataSourceConnection`, `fetchSchemaFromDataSource`,
  `executeQuery` and the per-engine PostgreSQL/MySQL implementations.

External I/O (the pg / mysql2 drivers) is modelled by an explicit environment that fixes
the outcome of every driver call, together with a trace of network events recorded in the
order the source performs them.  JavaScript numbers reached through `parseInt` are modelled
as `Option Int` with `none` playing the role of `NaN`.
-/

namespace InsightIQ

/-! ## Data model (shared/schema.ts) -/

/-- A data-source configuration record (`DataSource` in shared/schema.ts).
`type` is the engine identifier string ("postgresql", "mysql", ...). -/
structure DataSource where
  id : Int
  organizationId : Int
  userId : Int
  name : String
  type : String
  host : String
  port : Int
  database : String
  username : String
  password : String
  ssl : Bool
deriving Repr, DecidableEq

/-- An organization membership record. -/
structure OrganizationMember where
  organizationId : Int
  userId : Int
  role : String
deriving Repr, DecidableEq

/-- An organization record (only the fields the studied code reads). -/
structure Organization where
  id : Int
  name : String
  slug : String
deriving Repr, DecidableEq

/-- The in-memory storage backing `MemStorage` (storage.ts): maps are modelled as lists
keyed by the same keys the source uses. -/
structure Storage where
  organizations : List Organization
  organizationMembers : List OrganizationMember
  dataSources : List DataSource
deriving Repr

/-- storage.ts `getOrganizationMember`: lookup by the `(organizationId, userId)` key. -/
def Storage.getOrganizationMember (st : Storage) (organizationId userId : Int) :
    Option OrganizationMember :=
  st.organizationMembers.find? fun m =>
    m.organizationId == organizationId && m.userId == userId

/-- storage.ts `getOrganization`: lookup by id. -/
def Storage.getOrganization (st : Storage) (id : Int) : Option Organization :=
  st.organizations.find? fun o => o.id == id

/-- storage.ts `getDataSource`: lookup by id. -/
def Storage.getDataSource (st : Storage) (id : Int) : Option DataSource :=
  st.dataSources.find? fun d => d.id == id

/-! ## JavaScript number/string helpers -/

/-- The digit-prefix part of JavaScript `parseInt`: value of the leading decimal digits,
`none` when there is no leading digit (`NaN`). -/
def leadingDigitsVal (cs : List Char) : Option Nat :=
  let ds := cs.takeWhile Char.isDigit
  if ds.isEmpty then none
  else some (ds.foldl (fun a c => a * 10 + (c.toNat - Char.toNat (Char.ofNat 48))) 0)

/-- JavaScript `parseInt(s)` (radix 10): skips leading whitespace, accepts an optional
sign, reads the longest digit prefix; `none` models `NaN`. -/
def parseIntJs (s : String) : Option Int :=
  let cs := s.data.dropWhile Char.isWhitespace
  match cs with
  | List.cons c r =>
      if c == Char.ofNat 45 then (leadingDigitsVal r).map fun n => -(n : Int)
      else if c == Char.ofNat 43 then (leadingDigitsVal r).map fun n => (n : Int)
      else (leadingDigitsVal cs).map fun n => (n : Int)
  | List.nil => (leadingDigitsVal cs).map fun n => (n : Int)

/-- JavaScript truthiness of an `organizationId` field carried as a string:
`undefined`/missing and the empty string are falsy. -/
def truthyStr : Option String → Bool
  | none => false
  | some s => !(s == "")

/-- The JavaScript value returned by `getOrganizationIdFromRequest`: `null`, `NaN`
(from `parseInt` on a non-numeric string), or a number. -/
inductive JsNumOrNull where
  | null
  | nan
  | num (n : Int)
deriving Repr, DecidableEq

/-- `parseInt` wrapped into the `number`-or-`NaN` value space. -/
def parseIntVal (s : String) : JsNumOrNull :=
  match parseIntJs s with
  | some n => JsNumOrNull.num n
  | none => JsNumOrNull.nan

/-- JavaScript falsiness of the extracted organization id (`!organizationId`):
`null`, `NaN` and `0` are falsy. -/
def JsNumOrNull.falsy : JsNumOrNull → Bool
  | JsNumOrNull.null => true
  | JsNumOrNull.nan => true
  | JsNumOrNull.num n => n == 0

/-! ## Requests and middleware (middleware.ts) -/

/-- The slice of an Express request the studied code reads.  `user = some uid` models
`req.isAuthenticated()` being true with `req.user.id = uid`.  The `organizationId`
fields model `req.body.organizationId`, `req.query.organizationId` and
`req.params.organizationId` as optionally-present strings. -/
structure Request where
  user : Option Int
  bodyOrganizationId : Option String
  queryOrganizationId : Option String
  paramsOrganizationId : Option String
  paramsOrgSlug : Option String
  paramsId : Option String
  bodyQuery : Option String
deriving Repr, DecidableEq

/-- middleware.ts `getOrganizationIdFromRequest`: body, then query, then URL path
params, in that order; the `orgSlug` branch and the fall-through both return `null`. -/
def getOrganizationIdFromRequest (req : Request) : JsNumOrNull :=
  if truthyStr req.bodyOrganizationId then
    parseIntVal (req.bodyOrganizationId.getD "")
  else if truthyStr req.queryOrganizationId then
    parseIntVal (req.queryOrganizationId.getD "")
  else if truthyStr req.paramsOrganizationId then
    parseIntVal (req.paramsOrganizationId.getD "")
  else if truthyStr req.paramsOrgSlug then
    JsNumOrNull.null
  else
    JsNumOrNull.null

/-- Outcome of a middleware invocation: either control passes to the next handler,
with the organization / role context the middleware attached to the request (both
`none` when it attached nothing), or the middleware responded with an HTTP status
and error message. -/
inductive MwOutcome where
  | next (organization : Option Organization) (orgRole : Option String)
  | deny (status : Nat) (error : String)
deriving Repr, DecidableEq

/-- The HTTP status of a middleware response, `none` when control passed through. -/
def MwOutcome.statusOf : MwOutcome → Option Nat
  | MwOutcome.next _ _ => none
  | MwOutcome.deny s _ => some s

/-- middleware.ts `tenantIsolationMiddleware`.  Unauthenticated requests are skipped
(`return next()`), as is any request whose extracted organization id is falsy
(`null`, `NaN` or `0`).  Otherwise the `(organizationId, userId)` membership is
looked up; absence denies with 403, presence attaches `req.organization` and
`req.orgRole` and passes control on. -/
def tenantIsolationMiddleware (st : Storage) (req : Request) : MwOutcome :=
  match req.user with
  | none => MwOutcome.next none none
  | some userId =>
    match getOrganizationIdFromRequest req with
    | JsNumOrNull.null => MwOutcome.next none none
    | JsNumOrNull.nan => MwOutcome.next none none
    | JsNumOrNull.num orgId =>
      if orgId == 0 then MwOutcome.next none none
      else
        match st.getOrganizationMember orgId userId with
        | none => MwOutcome.deny 403 "You don\x27t have access to this organization\x27s data"
        | some membership =>
            MwOutcome.next (st.getOrganization orgId) (some membership.role)

/-- The request context attached by earlier middleware (`req.organization`,
`req.orgRole`). -/
structure ReqContext where
  organization : Option Organization
  orgRole : Option String
deriving Repr, DecidableEq

/-- middleware.ts `roleCheckMiddleware(requiredRoles)`: 401 without a session, 400
without organization context, 403 on a role outside `requiredRoles`. -/
def roleCheckMiddleware (requiredRoles : List String) (req : Request) (ctx : ReqContext) :
    MwOutcome :=
  match req.user with
  | none => MwOutcome.deny 401 "Authentication required"
  | some _ =>
    if ctx.organization.isNone || !(truthyStr ctx.orgRole) then
      MwOutcome.deny 400 "Organization context is required"
    else if requiredRoles.contains (ctx.orgRole.getD "") then
      MwOutcome.next ctx.organization ctx.orgRole
    else
      MwOutcome.deny 403
        ("This action requires one of the following roles: " ++ String.intercalate ", " requiredRoles)

/-! ## Connector layer (data-connectors.ts)

Driver calls are modelled through an environment fixing the outcome of each distinct
statement the source issues, and every function additionally returns the list of
network events it performed, in order.  `Except String` models raised exceptions
carrying the driver's message. -/

/-- A network event performed against the external database. -/
inductive NetEv where
  | connectOk
  | connectFail
  | query
  | close
deriving Repr, DecidableEq

/-- The normalized connection-test result (`ConnectionResult`). -/
structure ConnectionResult where
  success : Bool
  error : Option String := none
deriving Repr, DecidableEq

/-- A foreign-key reference target (`SchemaColumn.references`). -/
structure FkReference where
  table : String
  column : String
deriving Repr, DecidableEq

/-- A normalized column description (`SchemaColumn`). -/
structure SchemaColumn where
  name : String
  type : String
  nullable : Bool
  isPrimaryKey : Bool
  isForeignKey : Bool
  references : Option FkReference := none
deriving Repr, DecidableEq

/-- A normalized table description (`TableSchema`). -/
structure TableSchema where
  name : String
  columns : List SchemaColumn
deriving Repr, DecidableEq

/-- The normalized query result (`QueryResult`).  Row values are modelled as strings;
the driver's native coercions are outside the model. -/
structure QueryResult where
  columns : List String
  rows : List (List String)
  rowCount : Nat
  error : Option String := none
deriving Repr, DecidableEq

/-- One row of the per-table catalog query both introspectors issue (ordered by
`ordinal_position` by the embedded SQL; the environment returns the rows in that
order).  `foreign_table_name` / `foreign_column_name` are only read by the source
when `is_foreign_key` is true, in which case the SQL join guarantees they are
non-NULL. -/
structure CatalogRow where
  column_name : String
  data_type : String
  is_nullable : String
  is_primary_key : Bool
  is_foreign_key : Bool
  foreign_table_name : String
  foreign_column_name : String
deriving Repr, DecidableEq

/-- The result shape of `pg`'s `client.query` for a caller-supplied statement. -/
structure PgDriverResult where
  fields : List String
  rows : List (List String)
  rowCount : Nat
deriving Repr, DecidableEq

/-- Environment describing how the external PostgreSQL database answers each driver
call the source makes: `connect` for `client.connect()`, `select1` for the probe
query, `tablesQuery` for the table-list catalog query (returning the table names),
`columnsQuery` for the per-table catalog query, `execQuery` for a caller-supplied
statement. -/
structure PgEnv where
  connect : Except String Unit
  select1 : Except String Unit
  tablesQuery : Except String (List String)
  columnsQuery : String → Except String (List CatalogRow)
  execQuery : String → Except String PgDriverResult

/-- The result shape of `mysql2`'s `connection.query` for a caller-supplied statement:
`fields` may be `undefined` for statements that return no field metadata. -/
structure MyDriverResult where
  fields : Option (List String)
  rows : List (List String)
deriving Repr, DecidableEq

/-- Environment for the external MySQL database, mirroring `PgEnv`; `connect` is the
outcome of `mysql.createConnection(...)`, which in the source happens before the
`try`/`finally` block. -/
structure MyEnv where
  connect : Except String Unit
  select1 : Except String Unit
  tablesQuery : Except String (List String)
  columnsQuery : String → Except String (List CatalogRow)
  execQuery : String → Except String MyDriverResult

/-- The combined driver environment. -/
structure Env where
  pg : PgEnv
  my : MyEnv

/-- data-connectors.ts `testPostgresConnection`: connect and run `SELECT 1` inside
`try`/`catch`, `client.end()` in `finally` on every path.  Never raises. -/
def testPostgresConnection (env : PgEnv) (_ds : DataSource) :
    ConnectionResult × List NetEv :=
  match env.connect with
  | Except.error e =>
      ({ success := false, error := some e }, [NetEv.connectFail, NetEv.close])
  | Except.ok _ =>
    match env.select1 with
    | Except.error e =>
        ({ success := false, error := some e },
         [NetEv.connectOk, NetEv.query, NetEv.close])
    | Except.ok _ =>
        ({ success := true }, [NetEv.connectOk, NetEv.query, NetEv.close])

/-- The column mapping in `fetchPostgresSchema`: one `SchemaColumn` per catalog row;
`references` is populated exactly when `is_foreign_key` is set. -/
def pgColumnOfRow (row : CatalogRow) : SchemaColumn :=
  { name := row.column_name
    type := row.data_type
    nullable := row.is_nullable == "YES"
    isPrimaryKey := row.is_primary_key
    isForeignKey := row.is_foreign_key
    references :=
      if row.is_foreign_key then
        some { table := row.foreign_table_name, column := row.foreign_column_name }
      else none }

/-- The column mapping in `fetchMySQLSchema` (the `Boolean(...)` coercions of the
source are identities under this model). -/
def myColumnOfRow (row : CatalogRow) : SchemaColumn :=
  { name := row.column_name
    type := row.data_type
    nullable := row.is_nullable == "YES"
    isPrimaryKey := row.is_primary_key
    isForeignKey := row.is_foreign_key
    references :=
      if row.is_foreign_key then
        some { table := row.foreign_table_name, column := row.foreign_column_name }
      else none }

/-- The `for (const tableRow of tablesResult.rows)` loop shared by both
introspectors: one per-table catalog query per table name; the first failure
aborts the loop and propagates. -/
def schemaLoop (columnsQuery : String → Except String (List CatalogRow))
    (columnOfRow : CatalogRow → SchemaColumn) :
    List String → Except String (List TableSchema) × List NetEv
  | [] => (Except.ok [], [])
  | t :: ts =>
    match columnsQuery t with
    | Except.error e => (Except.error e, [NetEv.query])
    | Except.ok rows =>
      match schemaLoop columnsQuery columnOfRow ts with
      | (Except.ok rest, tr) =>
          (Except.ok ({ name := t, columns := rows.map columnOfRow } :: rest),
           NetEv.query :: tr)
      | (Except.error e, tr) => (Except.error e, NetEv.query :: tr)

/-- data-connectors.ts `fetchPostgresSchema`: connect, list the base tables, then run
the per-table catalog query for each table; `client.end()` in `finally`; any failure
raises. -/
def fetchPostgresSchema (env : PgEnv) (_ds : DataSource) :
    Except String (List TableSchema) × List NetEv :=
  match env.connect with
  | Except.error e => (Except.error e, [NetEv.connectFail, NetEv.close])
  | Except.ok _ =>
    match env.tablesQuery with
    | Except.error e =>
        (Except.error e, [NetEv.connectOk, NetEv.query, NetEv.close])
    | Except.ok names =>
      match schemaLoop env.columnsQuery pgColumnOfRow names with
      | (res, tr) =>
          (res, NetEv.connectOk :: NetEv.query :: (tr ++ [NetEv.close]))

/-- data-connectors.ts `executePostgresQuery`: connect, run the caller's statement,
normalize `fields`/`rows`/`rowCount`; `client.end()` in `finally`; failures raise. -/
def executePostgresQuery (env : PgEnv) (_ds : DataSource) (query : String) :
    Except String QueryResult × List NetEv :=
  match env.connect with
  | Except.error e => (Except.error e, [NetEv.connectFail, NetEv.close])
  | Except.ok _ =>
    match env.execQuery query with
    | Except.error e =>
        (Except.error e, [NetEv.connectOk, NetEv.query, NetEv.close])
    | Except.ok r =>
        (Except.ok { columns := r.fields, rows := r.rows, rowCount := r.rowCount },
         [NetEv.connectOk, NetEv.query, NetEv.close])

/-- data-connectors.ts `testMySQLConnection`: `mysql.createConnection` happens before
the `try`, so a connect failure raises without reaching the `finally`; otherwise the
probe query runs and `connection.end()` always closes. -/
def testMySQLConnection (env : MyEnv) (_ds : DataSource) :
    Except String ConnectionResult × List NetEv :=
  match env.connect with
  | Except.error e => (Except.error e, [NetEv.connectFail])
  | Except.ok _ =>
    match env.select1 with
    | Except.error e =>
        (Except.ok { success := false, error := some e },
         [NetEv.connectOk, NetEv.query, NetEv.close])
    | Except.ok _ =>
        (Except.ok { success := true }, [NetEv.connectOk, NetEv.query, NetEv.close])

/-- data-connectors.ts `fetchMySQLSchema`: as `fetchPostgresSchema`, but the connect
happens before the `try`, so a connect failure raises without a close event. -/
def fetchMySQLSchema (env : MyEnv) (_ds : DataSource) :
    Except String (List TableSchema) × List NetEv :=
  match env.connect with
  | Except.error e => (Except.error e, [NetEv.connectFail])
  | Except.ok _ =>
    match env.tablesQuery with
    | Except.error e =>
        (Except.error e, [NetEv.connectOk, NetEv.query, NetEv.close])
    | Except.ok names =>
      match schemaLoop env.columnsQuery myColumnOfRow names with
      | (res, tr) =>
          (res, NetEv.connectOk :: NetEv.query :: (tr ++ [NetEv.close]))

/-- data-connectors.ts `executeMySQLQuery`: connect before the `try`, run the
caller's statement, normalize (`columns` empty when the driver returned no field
metadata, `rowCount` the row-array length); `connection.end()` in `finally`. -/
def executeMySQLQuery (env : MyEnv) (_ds : DataSource) (query : String) :
    Except String QueryResult × List NetEv :=
  match env.connect with
  | Except.error e => (Except.error e, [NetEv.connectFail])
  | Except.ok _ =>
    match env.execQuery query with
    | Except.error e =>
        (Except.error e, [NetEv.connectOk, NetEv.query, NetEv.close])
    | Except.ok r =>
        (Except.ok { columns := r.fields.getD [], rows := r.rows, rowCount := r.rows.length },
         [NetEv.connectOk, NetEv.query, NetEv.close])

/-- data-connectors.ts `testDataSourceConnection`: dispatch on the engine string; an
unknown engine returns a failed `ConnectionResult` without touching the network; the
surrounding `try`/`catch` converts any raised error (e.g. a MySQL connect failure)
into a failed result. -/
def testDataSourceConnection (env : Env) (ds : DataSource) :
    ConnectionResult × List NetEv :=
  match ds.type with
  | "postgresql" => testPostgresConnection env.pg ds
  | "mysql" =>
    match testMySQLConnection env.my ds with
    | (Except.ok r, tr) => (r, tr)
    | (Except.error e, tr) => ({ success := false, error := some e }, tr)
  | _ => ({ success := false, error := some ("Unsupported database type: " ++ ds.type) }, [])

/-- data-connectors.ts `fetchSchemaFromDataSource`: dispatch on the engine string; an
unknown engine throws before any network I/O; the `catch` re-throws, so failures
propagate unchanged. -/
def fetchSchemaFromDataSource (env : Env) (ds : DataSource) :
    Except String (List TableSchema) × List NetEv :=
  match ds.type with
  | "postgresql" => fetchPostgresSchema env.pg ds
  | "mysql" => fetchMySQLSchema env.my ds
  | _ => (Except.error ("Unsupported database type: " ++ ds.type), [])

/-- The `try` block of data-connectors.ts `executeQuery`: dispatch on the engine
string; an unknown engine throws before any network I/O. -/
def executeQueryInner (env : Env) (ds : DataSource) (query : String) :
    Except String QueryResult × List NetEv :=
  match ds.type with
  | "postgresql" => executePostgresQuery env.pg ds query
  | "mysql" => executeMySQLQuery env.my ds query
  | _ => (Except.error ("Unsupported database type: " ++ ds.type), [])

/-- data-connectors.ts `executeQuery`: the surrounding `catch` converts any raised
error into a `QueryResult` with empty data and the driver message, so the function
never raises to its caller. -/
def executeQuery (env : Env) (ds : DataSource) (query : String) :
    QueryResult × List NetEv :=
  match executeQueryInner env ds query with
  | (Except.ok r, tr) => (r, tr)
  | (Except.error e, tr) =>
      ({ columns := [], rows := [], rowCount := 0, error := some e }, tr)

/-! ## Organization-scoped routes (routes.ts) -/

/-- An HTTP response of the organization-scoped data-source routes. -/
inductive RouteResult where
  | denied (status : Nat) (message : String)
  | dataSourceJson (status : Nat) (ds : DataSource)
  | schemaJson (status : Nat) (tables : List TableSchema)
  | queryResultJson (status : Nat) (result : QueryResult)
  | noContent
deriving Repr, DecidableEq

/-- JavaScript `a !== b` where `b` came from `parseInt` (possibly `NaN`, which is
`!==` every number). -/
def jsStrictNe (a : Int) (b : Option Int) : Bool :=
  match b with
  | none => true
  | some n => !(a == n)

/-- `parseInt(req.params.id)` followed by `storage.getDataSource(id)`; a `NaN` id
finds nothing in the map. -/
def lookupDataSource (st : Storage) (req : Request) : Option DataSource :=
  (parseIntJs (req.paramsId.getD "")).bind st.getDataSource

/-- The organization id parsed from the URL path in each handler
(`parseInt(req.params.organizationId)`). -/
def urlOrgId (req : Request) : Option Int :=
  parseIntJs (req.paramsOrganizationId.getD "")

/-- routes.ts `GET /api/organizations/:organizationId/datasources/:id`, including the
`tenantIsolationMiddleware` mounted on `/api/organizations/:organizationId`. -/
def getDataSourceRoute (st : Storage) (req : Request) : RouteResult :=
  match tenantIsolationMiddleware st req with
  | MwOutcome.deny s m => RouteResult.denied s m
  | MwOutcome.next _ _ =>
    match lookupDataSource st req with
    | none => RouteResult.denied 404 "Data source not found"
    | some dataSource =>
      if jsStrictNe dataSource.organizationId (urlOrgId req) then
        RouteResult.denied 403 "Forbidden"
      else
        RouteResult.dataSourceJson 200 dataSource

/-- routes.ts `DELETE /api/organizations/:organizationId/datasources/:id`, with the
tenant guard and `roleCheckMiddleware(["owner", "admin"])` in front of the handler. -/
def deleteDataSourceRoute (st : Storage) (req : Request) : RouteResult :=
  match tenantIsolationMiddleware st req with
  | MwOutcome.deny s m => RouteResult.denied s m
  | MwOutcome.next org role =>
    match roleCheckMiddleware ["owner", "admin"] req { organization := org, orgRole := role } with
    | MwOutcome.deny s m => RouteResult.denied s m
    | MwOutcome.next _ _ =>
      match lookupDataSource st req with
      | none => RouteResult.denied 404 "Data source not found"
      | some dataSource =>
        if jsStrictNe dataSource.organizationId (urlOrgId req) then
          RouteResult.denied 403 "Forbidden"
        else
          RouteResult.noContent

/-- routes.ts `GET /api/organizations/:organizationId/datasources/:id/schema`, with
the tenant guard in front; an introspection failure reaches `next(error)` and the
framework's error handler answers 500. -/
def schemaRoute (st : Storage) (env : Env) (req : Request) :
    RouteResult × List NetEv :=
  match tenantIsolationMiddleware st req with
  | MwOutcome.deny s m => (RouteResult.denied s m, [])
  | MwOutcome.next _ _ =>
    match lookupDataSource st req with
    | none => (RouteResult.denied 404 "Data source not found", [])
    | some dataSource =>
      if jsStrictNe dataSource.organizationId (urlOrgId req) then
        (RouteResult.denied 403 "Forbidden", [])
      else
        match fetchSchemaFromDataSource env dataSource with
        | (Except.ok tables, tr) => (RouteResult.schemaJson 200 tables, tr)
        | (Except.error e, tr) => (RouteResult.denied 500 e, tr)

/-- routes.ts `POST /api/organizations/:organizationId/datasources/:id/execute`, with
the tenant guard in front; the result of `executeQuery` — error or not — is sent
back with `res.json(result)` (status 200). -/
def executeRoute (st : Storage) (env : Env) (req : Request) :
    RouteResult × List NetEv :=
  match tenantIsolationMiddleware st req with
  | MwOutcome.deny s m => (RouteResult.denied s m, [])
  | MwOutcome.next _ _ =>
    match lookupDataSource st req with
    | none => (RouteResult.denied 404 "Data source not found", [])
    | some dataSource =>
      if jsStrictNe dataSource.organizationId (urlOrgId req) then
        (RouteResult.denied 403 "Forbidden", [])
      else if !(truthyStr req.bodyQuery) then
        (RouteResult.denied 400 "Query is required", [])
      else
        match executeQuery env dataSource (req.bodyQuery.getD "") with
        | (r, tr) => (RouteResult.queryResultJson 200 r, tr)

/-! ## Trace accounting for connection-handle hygiene -/

/-- Fold step tracking `(handles currently open, closes that matched an open handle)`
along a network-event trace.  `close` on a driver object whose connect failed
releases nothing. -/
def netStep : Nat × Nat → NetEv → Nat × Nat
  | (o, c), NetEv.connectOk => (o + 1, c)
  | (o, c), NetEv.close => if o > 0 then (o - 1, c + 1) else (o, c)
  | (o, c), _ => (o, c)

/-- `(handles still open, matched closes)` after a full trace. -/
def netBalance (tr : List NetEv) : Nat × Nat :=
  tr.foldl netStep (0, 0)

/-- Number of successfully opened connection handles in a trace. -/
def opensOf (tr : List NetEv) : Nat :=
  tr.countP fun ev => ev == NetEv.connectOk

/-- A trace is handle-clean when no handle stays open at the end, every opened handle
was closed exactly once, and at most one handle was opened (one connection per
operation). -/
def handleClean (tr : List NetEv) : Prop :=
  (netBalance tr).1 = 0 ∧ (netBalance tr).2 = opensOf tr ∧ opensOf tr ≤ 1

instance (tr : List NetEv) : Decidable (handleClean tr) := by
  unfold handleClean; infer_instance

/-- `Except.isOk` as a plain boolean, for stating that introspection surfaced no
(partial) result. -/
def exceptIsOk {α : Type} : Except String α → Bool
  | Except.ok _ => true
  | Except.error _ => false

/-! ## Concrete fixtures used by counterexamples and witnesses -/

/-- Organization 1. -/
def orgAcme : Organization := { id := 1, name := "Acme Analytics", slug := "acme" }

/-- Organization 2. -/
def orgBeta : Organization := { id := 2, name := "Beta Corp", slug := "beta" }

/-- A PostgreSQL data source owned by organization 1. -/
def dsPg : DataSource :=
  { id := 5, organizationId := 1, userId := 10, name := "prod analytics"
    type := "postgresql", host := "db.example.com", port := 5432
    database := "app", username := "reader", password := "secret", ssl := false }

/-- A data source with an unsupported engine identifier. -/
def dsOracle : DataSource := { dsPg with id := 7, type := "oracle" }

/-- Storage with two organizations: user 10 owns organization 1, user 20 owns
organization 2; data source 5 belongs to organization 1. -/
def stEx : Storage :=
  { organizations := [orgAcme, orgBeta]
    organizationMembers :=
      [ { organizationId := 1, userId := 10, role := "owner" }
      , { organizationId := 2, userId := 20, role := "owner" } ]
    dataSources := [dsPg] }

/-- A PostgreSQL environment where every driver call succeeds. -/
def pgEnvOk : PgEnv :=
  { connect := Except.ok ()
    select1 := Except.ok ()
    tablesQuery := Except.ok []
    columnsQuery := fun _ => Except.ok []
    execQuery := fun _ =>
      Except.ok { fields := ["?column?"], rows := [["1"]], rowCount := 1 } }

/-- A MySQL environment where every driver call succeeds. -/
def myEnvOk : MyEnv :=
  { connect := Except.ok ()
    select1 := Except.ok ()
    tablesQuery := Except.ok []
    columnsQuery := fun _ => Except.ok []
    execQuery := fun _ => Except.ok { fields := some ["x"], rows := [] } }

/-- Healthy combined environment. -/
def envOk : Env := { pg := pgEnvOk, my := myEnvOk }

/-- A PostgreSQL environment where the caller-supplied statement fails at the engine. -/
def pgEnvSyntaxErr : PgEnv :=
  { pgEnvOk with
    execQuery := fun _ => Except.error "relation nonexistent_table does not exist" }

/-- Combined environment with a failing caller statement. -/
def envSyntaxErr : Env := { pg := pgEnvSyntaxErr, my := myEnvOk }

/-- A PostgreSQL environment where the per-table catalog query for `orders` fails. -/
def pgEnvColFail : PgEnv :=
  { pgEnvOk with
    tablesQuery := Except.ok ["users", "orders"]
    columnsQuery := fun t =>
      if t == "orders" then Except.error "permission denied for table orders"
      else Except.ok [] }

/-- A PostgreSQL environment where the table-list catalog query fails. -/
def pgEnvTablesFail : PgEnv :=
  { pgEnvOk with tablesQuery := Except.error "catalog is unavailable" }

/-- Catalog row of `orders.id` (primary key). -/
def ordersIdRow : CatalogRow :=
  { column_name := "id", data_type := "integer", is_nullable := "NO"
    is_primary_key := true, is_foreign_key := false
    foreign_table_name := "", foreign_column_name := "" }

/-- Catalog row of `orders.customer_id` (foreign key to `customers.id`). -/
def ordersCustomerRow : CatalogRow :=
  { column_name := "customer_id", data_type := "integer", is_nullable := "YES"
    is_primary_key := false, is_foreign_key := true
    foreign_table_name := "customers", foreign_column_name := "id" }

/-- Catalog row of `orders.total`. -/
def ordersTotalRow : CatalogRow :=
  { column_name := "total", data_type := "numeric", is_nullable := "YES"
    is_primary_key := false, is_foreign_key := false
    foreign_table_name := "", foreign_column_name := "" }

/-- A catalog row whose column is simultaneously part of a primary key and a
foreign key (composite-key case). -/
def compositeKeyRow : CatalogRow :=
  { column_name := "order_id", data_type := "integer", is_nullable := "NO"
    is_primary_key := true, is_foreign_key := true
    foreign_table_name := "orders", foreign_column_name := "id" }

/-- A PostgreSQL environment exposing the `orders(id PK, customer_id FK, total)`
table of the spec's introspection example. -/
def ordersEnv : PgEnv :=
  { connect := Except.ok ()
    select1 := Except.ok ()
    tablesQuery := Except.ok ["orders"]
    columnsQuery := fun t =>
      if t == "orders" then Except.ok [ordersIdRow, ordersCustomerRow, ordersTotalRow]
      else Except.ok []
    execQuery := fun _ => Except.error "unused" }

/-- The normalized `TableSchema` the introspection example must produce. -/
def ordersExpected : TableSchema :=
  { name := "orders"
    columns :=
      [ { name := "id", type := "integer", nullable := false
          isPrimaryKey := true, isForeignKey := false, references := none }
      , { name := "customer_id", type := "integer", nullable := true
          isPrimaryKey := false, isForeignKey := true
          references := some { table := "customers", column := "id" } }
      , { name := "total", type := "numeric", nullable := true
          isPrimaryKey := false, isForeignKey := false, references := none } ] }

/-- An unauthenticated request to
`POST /api/organizations/1/datasources/5/execute` with a query body. -/
def reqUnauthExecute : Request :=
  { user := none
    bodyOrganizationId := none, queryOrganizationId := none
    paramsOrganizationId := some "1", paramsOrgSlug := none
    paramsId := some "5", bodyQuery := some "SELECT 1" }

/-- The same execute request issued by authenticated user 10 (member of
organization 1). -/
def reqAuthExecute : Request := { reqUnauthExecute with user := some 10 }

/-- The same execute request issued by authenticated user 20, who is owner of
organization 2 but no member of organization 1. -/
def reqCrossTenant : Request := { reqUnauthExecute with user := some 20 }

/-- An authenticated request carrying no organization id anywhere. -/
def reqNoOrg : Request :=
  { user := some 10
    bodyOrganizationId := none, queryOrganizationId := none
    paramsOrganizationId := none, paramsOrgSlug := none
    paramsId := none, bodyQuery := none }

/-- A request to `POST /api/organizations/2/datasources/5/execute` by user 20
(member of organization 2) — the URL organization (2) differs from the owner of
data source 5 (organization 1). -/
def reqMismatch : Request :=
  { reqUnauthExecute with user := some 20, paramsOrganizationId := some "2" }

/-- A request carrying an organization id in body, query and path simultaneously. -/
def reqAllOrgFields : Request :=
  { user := some 10
    bodyOrganizationId := some "7", queryOrganizationId := some "8"
    paramsOrganizationId := some "9", paramsOrgSlug := none
    paramsId := none, bodyQuery := none }

/-- As `reqAllOrgFields` but with no body organization id. -/
def reqQueryAndParams : Request := { reqAllOrgFields with bodyOrganizationId := none }

/-- As `reqAllOrgFields` but with the organization id only in the URL path. -/
def reqParamsOnly : Request :=
  { reqAllOrgFields with bodyOrganizationId := none, queryOrganizationId := none }

/-- The cross-tenant override attack request: user 20 (owner of organization 2
only) targets organization 1 and its data source 5 in the URL path while
carrying `organizationId = "2"` in the request body, so the guard checks
membership against organization 2 while the handler compares the data source
against the path organization 1. -/
def reqBodyOverride : Request :=
  { user := some 20
    bodyOrganizationId := some "2", queryOrganizationId := none
    paramsOrganizationId := some "1", paramsOrgSlug := none
    paramsId := some "5", bodyQuery := some "SELECT 1" }

/-- The same override through the query string (`?organizationId=2`), for the
body-less GET route. -/
def reqQueryOverride : Request :=
  { user := some 20
    bodyOrganizationId := none, queryOrganizationId := some "2"
    paramsOrganizationId := some "1", paramsOrgSlug := none
    paramsId := some "5", bodyQuery := none }

/-! ## Helper lemmas -/

theorem tenantIso_user_none (st : Storage) (req : Request) (h : req.user = none) :
    tenantIsolationMiddleware st req = MwOutcome.next none none := by
  unfold tenantIsolationMiddleware
  rw [h]

theorem tenantIso_deny_eq (st : Storage) (req : Request) (s : Nat) (m : String)
    (h : tenantIsolationMiddleware st req = MwOutcome.deny s m) :
    s = 403 ∧ m = "You don\x27t have access to this organization\x27s data" := by
  unfold tenantIsolationMiddleware at h
  split at h
  · simp at h
  · split at h
    · simp at h
    · simp at h
    · split at h
      · simp at h
      · split at h
        · injection h with h1 h2
          exact ⟨h1.symm, h2.symm⟩
        · simp at h

theorem schemaLoop_trace (cq : String → Except String (List CatalogRow))
    (cof : CatalogRow → SchemaColumn) (ts : List String) :
    ∀ ev ∈ (schemaLoop cq cof ts).snd, ev = NetEv.query := by
  induction ts with
  | nil => intro ev hev; simp [schemaLoop] at hev
  | cons t ts ih =>
    intro ev hev
    unfold schemaLoop at hev
    cases hq : cq t with
    | error e => rw [hq] at hev; simp at hev; exact hev
    | ok rows =>
      rw [hq] at hev
      cases hrec : schemaLoop cq cof ts with
      | mk res tr =>
        rw [hrec] at hev
        have htr : (schemaLoop cq cof ts).snd = tr := congrArg Prod.snd hrec
        cases res with
        | ok rest =>
          simp at hev
          rcases hev with hev | hev
          · exact hev
          · exact ih ev (htr ▸ hev)
        | error e =>
          simp at hev
          rcases hev with hev | hev
          · exact hev
          · exact ih ev (htr ▸ hev)

theorem foldl_netStep_query (tr : List NetEv) (h : ∀ ev ∈ tr, ev = NetEv.query) :
    ∀ s : Nat × Nat, tr.foldl netStep s = s := by
  induction tr with
  | nil => intro s; rfl
  | cons ev tr ih =>
    intro s
    have hev : ev = NetEv.query := h ev (by simp)
    subst hev
    have hs : netStep s NetEv.query = s := by cases s; rfl
    rw [List.foldl_cons, hs]
    exact ih (fun e he => h e (by simp [he])) s

theorem opensOf_query (tr : List NetEv) (h : ∀ ev ∈ tr, ev = NetEv.query) :
    opensOf tr = 0 := by
  unfold opensOf
  rw [List.countP_eq_zero]
  intro ev hev
  rw [h ev hev]
  decide

theorem handleClean_wrap (tr : List NetEv) (h : ∀ ev ∈ tr, ev = NetEv.query) :
    handleClean (NetEv.connectOk :: NetEv.query :: (tr ++ [NetEv.close])) := by
  have h1 : netBalance (NetEv.connectOk :: NetEv.query :: (tr ++ [NetEv.close])) = (0, 1) := by
    unfold netBalance
    rw [List.foldl_cons, List.foldl_cons, List.foldl_append, foldl_netStep_query tr h]
    rfl
  have h0 : tr.countP (fun ev => ev == NetEv.connectOk) = 0 := opensOf_query tr h
  have h2 : opensOf (NetEv.connectOk :: NetEv.query :: (tr ++ [NetEv.close])) = 1 := by
    unfold opensOf
    simp [List.countP_cons, List.countP_append, h0]
  exact ⟨by rw [h1], by rw [h1, h2], by rw [h2]⟩

theorem schemaLoop_ok_spec (cq : String → Except String (List CatalogRow))
    (cof : CatalogRow → SchemaColumn) :
    ∀ (ts : List String) (res : List TableSchema) (tr : List NetEv),
      schemaLoop cq cof ts = (Except.ok res, tr) →
      res.length = ts.length ∧ ∀ t ∈ ts, ∃ rows, cq t = Except.ok rows := by
  intro ts
  induction ts with
  | nil =>
    intro res tr h
    unfold schemaLoop at h
    simp at h
    obtain ⟨h1, _⟩ := h
    subst h1
    exact ⟨rfl, by simp⟩
  | cons t ts ih =>
    intro res tr h
    unfold schemaLoop at h
    cases hq : cq t with
    | error e => rw [hq] at h; simp at h
    | ok rows =>
      rw [hq] at h
      cases hrec : schemaLoop cq cof ts with
      | mk res2 tr2 =>
        rw [hrec] at h
        cases res2 with
        | error e => simp at h
        | ok rest =>
          simp at h
          obtain ⟨h1, _⟩ := h
          obtain ⟨hlen, hall⟩ := ih rest tr2 hrec
          constructor
          · rw [← h1]; simp [hlen]
          · intro t2 ht2
            rcases List.mem_cons.mp ht2 with rfl | ht2
            · exact ⟨rows, hq⟩
            · exact hall t2 ht2

theorem schemaLoop_err_spec (cq : String → Except String (List CatalogRow))
    (cof : CatalogRow → SchemaColumn) :
    ∀ (ts : List String) (t : String) (e : String), t ∈ ts → cq t = Except.error e →
      exceptIsOk (schemaLoop cq cof ts).fst = false := by
  intro ts
  induction ts with
  | nil => intro t e ht _; simp at ht
  | cons hd tl ih =>
    intro t e ht hq
    unfold schemaLoop
    cases hhd : cq hd with
    | error e2 => simp [exceptIsOk]
    | ok rows =>
      rcases List.mem_cons.mp ht with rfl | htl
      · rw [hq] at hhd; cases hhd
      · have hrec2 := ih t e htl hq
        cases hrec : schemaLoop cq cof tl with
        | mk res tr =>
          rw [hrec] at hrec2
          cases res with
          | ok rest => simp [exceptIsOk] at hrec2
          | error e3 => simp [exceptIsOk]

theorem handleClean_testPg (env : PgEnv) (ds : DataSource) :
    handleClean (testPostgresConnection env ds).snd := by
  unfold testPostgresConnection
  cases env.connect <;> try cases env.select1
  all_goals (dsimp only; decide)

theorem handleClean_schemaPg (env : PgEnv) (ds : DataSource) :
    handleClean (fetchPostgresSchema env ds).snd := by
  unfold fetchPostgresSchema
  cases env.connect
  · dsimp only; decide
  · cases env.tablesQuery with
    | error e => dsimp only; decide
    | ok names =>
      cases hrec : schemaLoop env.columnsQuery pgColumnOfRow names with
      | mk res tr =>
        have hq : ∀ ev ∈ tr, ev = NetEv.query := by
          intro ev hev
          exact schemaLoop_trace env.columnsQuery pgColumnOfRow names ev
            (by rw [hrec]; exact hev)
        dsimp only
        rw [hrec]
        exact handleClean_wrap tr hq

theorem handleClean_execPg (env : PgEnv) (ds : DataSource) (q : String) :
    handleClean (executePostgresQuery env ds q).snd := by
  unfold executePostgresQuery
  cases env.connect <;> try cases env.execQuery q
  all_goals (dsimp only; decide)

theorem handleClean_testMy (env : MyEnv) (ds : DataSource) :
    handleClean (testMySQLConnection env ds).snd := by
  unfold testMySQLConnection
  cases env.connect <;> try cases env.select1
  all_goals (dsimp only; decide)

theorem handleClean_schemaMy (env : MyEnv) (ds : DataSource) :
    handleClean (fetchMySQLSchema env ds).snd := by
  unfold fetchMySQLSchema
  cases env.connect
  · dsimp only; decide
  · cases env.tablesQuery with
    | error e => dsimp only; decide
    | ok names =>
      cases hrec : schemaLoop env.columnsQuery myColumnOfRow names with
      | mk res tr =>
        have hq : ∀ ev ∈ tr, ev = NetEv.query := by
          intro ev hev
          exact schemaLoop_trace env.columnsQuery myColumnOfRow names ev
            (by rw [hrec]; exact hev)
        dsimp only
        rw [hrec]
        exact handleClean_wrap tr hq

theorem handleClean_execMy (env : MyEnv) (ds : DataSource) (q : String) :
    handleClean (executeMySQLQuery env ds q).snd := by
  unfold executeMySQLQuery
  cases env.connect <;> try cases env.execQuery q
  all_goals (dsimp only; decide)

theorem handleClean_testDS (env : Env) (ds : DataSource) :
    handleClean (testDataSourceConnection env ds).snd := by
  unfold testDataSourceConnection
  split
  · exact handleClean_testPg env.pg ds
  · cases hmy : testMySQLConnection env.my ds with
    | mk r tr =>
      have hcl : handleClean tr := by
        have := handleClean_testMy env.my ds
        rw [hmy] at this
        exact this
      cases r <;> exact hcl
  · dsimp only; decide

theorem handleClean_schemaDS (env : Env) (ds : DataSource) :
    handleClean (fetchSchemaFromDataSource env ds).snd := by
  unfold fetchSchemaFromDataSource
  split
  · exact handleClean_schemaPg env.pg ds
  · exact handleClean_schemaMy env.my ds
  · dsimp only; decide

theorem handleClean_execInner (env : Env) (ds : DataSource) (q : String) :
    handleClean (executeQueryInner env ds q).snd := by
  unfold executeQueryInner
  split
  · exact handleClean_execPg env.pg ds q
  · exact handleClean_execMy env.my ds q
  · dsimp only; decide

theorem executeQuery_snd (env : Env) (ds : DataSource) (q : String) :
    (executeQuery env ds q).snd = (executeQueryInner env ds q).snd := by
  unfold executeQuery
  cases h : executeQueryInner env ds q with
  | mk r tr => cases r <;> rfl

/-! ## Claim theorems -/

/-- C1: the tenant-isolation invariant fails on the code.  At the concrete failing
input — an unauthenticated `POST /api/organizations/1/datasources/5/execute` where
data source 5 is owned by organization 1 — the tenant guard passes the request
through without attaching any authorization context, the handler performs no
authentication check, and the caller-supplied SQL is executed against the external
database (HTTP 200 with the query result, and a connection was opened), so a
data-source operation runs without ever reaching `Authorized`. -/
theorem unauthenticated_execute_runs_query :
    reqUnauthExecute.user = none ∧
    tenantIsolationMiddleware stEx reqUnauthExecute = MwOutcome.next none none ∧
    stEx.getDataSource 5 = some dsPg ∧ dsPg.organizationId = 1 ∧
    executeRoute stEx envOk reqUnauthExecute =
      (RouteResult.queryResultJson 200
        { columns := ["?column?"], rows := [["1"]], rowCount := 1, error := none },
       [NetEv.connectOk, NetEv.query, NetEv.close]) :=
  ⟨rfl, rfl, rfl, rfl, rfl⟩

/-- C3 (counterexample): an unauthenticated request to an organization-scoped
endpoint is not rejected with 401 by the tenant isolation guard — the guard
produces no status at all and passes control through. -/
theorem tenant_guard_no_401_counterexample :
    reqUnauthExecute.user = none ∧
    (tenantIsolationMiddleware stEx reqUnauthExecute).statusOf = none ∧
    tenantIsolationMiddleware stEx reqUnauthExecute = MwOutcome.next none none :=
  ⟨rfl, rfl, rfl⟩

/-- C3 (amended): for every request without a valid authenticated session, the
tenant isolation guard is a no-op — it passes the request through unchanged
(`next()`), attaching no organization context, and responds with no status code
(in particular not 401). -/
theorem tenant_guard_unauthenticated_passthrough (st : Storage) (req : Request)
    (h : req.user = none) :
    tenantIsolationMiddleware st req = MwOutcome.next none none ∧
    (tenantIsolationMiddleware st req).statusOf = none := by
  have h2 := tenantIso_user_none st req h
  exact ⟨h2, by rw [h2]; rfl⟩

theorem tenant_guard_unauthenticated_passthrough_witness :
    tenantIsolationMiddleware stEx reqUnauthExecute = MwOutcome.next none none ∧
    (tenantIsolationMiddleware stEx reqUnauthExecute).statusOf = none :=
  tenant_guard_unauthenticated_passthrough stEx reqUnauthExecute rfl

/-- C10: `roleCheckMiddleware` answers 401 "Authentication required" to every
request without an authenticated session, whatever the attached organization
context and required roles — so the 401 precedes the organization-context check
(400) and the role comparison (403) — even though the tenant isolation guard
itself passes unauthenticated requests through; consequently the role-guarded
DELETE datasource route stops an unauthenticated request with 401. -/
theorem role_gate_rejects_unauthenticated (st : Storage) (roles : List String)
    (req : Request) (ctx : ReqContext) (h : req.user = none) :
    roleCheckMiddleware roles req ctx = MwOutcome.deny 401 "Authentication required" ∧
    tenantIsolationMiddleware st req = MwOutcome.next none none ∧
    deleteDataSourceRoute st req = RouteResult.denied 401 "Authentication required" := by
  have h1 : roleCheckMiddleware roles req ctx = MwOutcome.deny 401 "Authentication required" := by
    unfold roleCheckMiddleware
    rw [h]
  have h2 := tenantIso_user_none st req h
  have h3 : roleCheckMiddleware ["owner", "admin"] req
      { organization := none, orgRole := none } = MwOutcome.deny 401 "Authentication required" := by
    unfold roleCheckMiddleware
    rw [h]
  refine ⟨h1, h2, ?_⟩
  unfold deleteDataSourceRoute
  rw [h2]
  dsimp only
  rw [h3]

theorem role_gate_rejects_unauthenticated_witness :
    roleCheckMiddleware ["owner", "admin"] reqUnauthExecute
        { organization := some orgAcme, orgRole := some "owner" } =
      MwOutcome.deny 401 "Authentication required" ∧
    tenantIsolationMiddleware stEx reqUnauthExecute = MwOutcome.next none none ∧
    deleteDataSourceRoute stEx reqUnauthExecute =
      RouteResult.denied 401 "Authentication required" :=
  role_gate_rejects_unauthenticated stEx ["owner", "admin"] reqUnauthExecute
    { organization := some orgAcme, orgRole := some "owner" } rfl

/-- C6: every connector operation is handle-clean in every driver environment —
the trace of each call leaves no connection handle open, closes each opened handle
exactly once, and opens at most one handle — on both the normal and the raising
exit paths, per engine and through the facade. -/
theorem connection_cleanup (env : Env) (ds : DataSource) (q : String) :
    handleClean (testPostgresConnection env.pg ds).snd ∧
    handleClean (fetchPostgresSchema env.pg ds).snd ∧
    handleClean (executePostgresQuery env.pg ds q).snd ∧
    handleClean (testMySQLConnection env.my ds).snd ∧
    handleClean (fetchMySQLSchema env.my ds).snd ∧
    handleClean (executeMySQLQuery env.my ds q).snd ∧
    handleClean (testDataSourceConnection env ds).snd ∧
    handleClean (fetchSchemaFromDataSource env ds).snd ∧
    handleClean (executeQuery env ds q).snd :=
  ⟨handleClean_testPg env.pg ds, handleClean_schemaPg env.pg ds,
   handleClean_execPg env.pg ds q, handleClean_testMy env.my ds,
   handleClean_schemaMy env.my ds, handleClean_execMy env.my ds q,
   handleClean_testDS env ds, handleClean_schemaDS env ds,
   by rw [executeQuery_snd env ds q]; exact handleClean_execInner env ds q⟩

/-- C5: for a `DataSource` whose engine identifier is neither "postgresql" nor
"mysql", all three operations fail with the unsupported-engine error and perform
no network event at all (empty trace): the connection test returns a failed
result, introspection raises, and query execution returns an error-carrying
`QueryResult`. -/
theorem unsupported_engine_fails_fast (env : Env) (ds : DataSource) (q : String)
    (h1 : ds.type ≠ "postgresql") (h2 : ds.type ≠ "mysql") :
    testDataSourceConnection env ds =
      ({ success := false, error := some ("Unsupported database type: " ++ ds.type) }, []) ∧
    fetchSchemaFromDataSource env ds =
      (Except.error ("Unsupported database type: " ++ ds.type), []) ∧
    executeQuery env ds q =
      ({ columns := [], rows := [], rowCount := 0,
         error := some ("Unsupported database type: " ++ ds.type) }, []) := by
  have hq : executeQueryInner env ds q =
      (Except.error ("Unsupported database type: " ++ ds.type), []) := by
    unfold executeQueryInner
    split <;> simp_all
  refine ⟨?_, ?_, ?_⟩
  · unfold testDataSourceConnection
    split <;> simp_all
  · unfold fetchSchemaFromDataSource
    split <;> simp_all
  · unfold executeQuery
    rw [hq]

theorem unsupported_engine_fails_fast_witness :
    dsOracle.type = "oracle" ∧
    testDataSourceConnection envOk dsOracle =
      ({ success := false, error := some ("Unsupported database type: " ++ dsOracle.type) }, []) ∧
    fetchSchemaFromDataSource envOk dsOracle =
      (Except.error ("Unsupported database type: " ++ dsOracle.type), []) ∧
    executeQuery envOk dsOracle "SELECT 1" =
      ({ columns := [], rows := [], rowCount := 0,
         error := some ("Unsupported database type: " ++ dsOracle.type) }, []) := by
  have h := unsupported_engine_fails_fast envOk dsOracle "SELECT 1"
    (by decide) (by decide)
  exact ⟨rfl, h.1, h.2.1, h.2.2⟩

/-- C7: the guard extracts the organization id from the request body first, then
the query parameters, then the URL path parameters, in that priority order; when
none of them carries an organization id the extraction yields `null` and the
guard passes control through unchanged, attaching nothing. -/
theorem org_id_extraction_priority :
    (∀ req : Request, truthyStr req.bodyOrganizationId = true →
        getOrganizationIdFromRequest req = parseIntVal (req.bodyOrganizationId.getD "")) ∧
    (∀ req : Request, truthyStr req.bodyOrganizationId = false →
        truthyStr req.queryOrganizationId = true →
        getOrganizationIdFromRequest req = parseIntVal (req.queryOrganizationId.getD "")) ∧
    (∀ req : Request, truthyStr req.bodyOrganizationId = false →
        truthyStr req.queryOrganizationId = false →
        truthyStr req.paramsOrganizationId = true →
        getOrganizationIdFromRequest req = parseIntVal (req.paramsOrganizationId.getD "")) ∧
    (∀ req : Request, truthyStr req.bodyOrganizationId = false →
        truthyStr req.queryOrganizationId = false →
        truthyStr req.paramsOrganizationId = false →
        getOrganizationIdFromRequest req = JsNumOrNull.null) ∧
    (∀ (st : Storage) (req : Request),
        getOrganizationIdFromRequest req = JsNumOrNull.null →
        tenantIsolationMiddleware st req = MwOutcome.next none none) := by
  refine ⟨?_, ?_, ?_, ?_, ?_⟩
  · intro req h
    unfold getOrganizationIdFromRequest
    simp [h]
  · intro req h1 h2
    unfold getOrganizationIdFromRequest
    simp [h1, h2]
  · intro req h1 h2 h3
    unfold getOrganizationIdFromRequest
    simp [h1, h2, h3]
  · intro req h1 h2 h3
    unfold getOrganizationIdFromRequest
    simp [h1, h2, h3]
  · intro st req h
    unfold tenantIsolationMiddleware
    cases req.user
    · rfl
    · rw [h]

theorem org_id_extraction_priority_witness :
    getOrganizationIdFromRequest reqAllOrgFields = JsNumOrNull.num 7 ∧
    getOrganizationIdFromRequest reqQueryAndParams = JsNumOrNull.num 8 ∧
    getOrganizationIdFromRequest reqParamsOnly = JsNumOrNull.num 9 ∧
    getOrganizationIdFromRequest reqNoOrg = JsNumOrNull.null ∧
    tenantIsolationMiddleware stEx reqNoOrg = MwOutcome.next none none := by
  refine ⟨?_, ?_, ?_, ?_, ?_⟩
  · exact (org_id_extraction_priority.1 reqAllOrgFields rfl).trans (by decide)
  · exact (org_id_extraction_priority.2.1 reqQueryAndParams rfl rfl).trans (by decide)
  · exact (org_id_extraction_priority.2.2.1 reqParamsOnly rfl rfl rfl).trans (by decide)
  · exact org_id_extraction_priority.2.2.2.1 reqNoOrg rfl rfl rfl
  · exact org_id_extraction_priority.2.2.2.2 stEx reqNoOrg
      (org_id_extraction_priority.2.2.2.1 reqNoOrg rfl rfl rfl)

/-- C2: the ownership re-check fails on the code.  User 20 is owner of
organization 2 and holds no membership in organization 1, yet a request naming
organization 1 in the URL path together with organization 1's data source 5 is
not denied: the guard resolves the organization id with body > query > path
priority, so a body (or query-string) `organizationId = "2"` makes the
membership check run against organization 2, while the handler compares the data
source only against the path organization 1 — both checks pass, the guard
attaches organization 2's context, the execute route runs the caller's SQL
against organization 1's data source (200, connection opened), and the GET
route discloses organization 1's stored config.  Membership in some other
organization is sufficient here, refuting the claim. -/
theorem cross_tenant_org_override_runs_query :
    stEx.getOrganizationMember 1 20 = none ∧
    stEx.getOrganizationMember 2 20 =
      some { organizationId := 2, userId := 20, role := "owner" } ∧
    dsPg.organizationId = 1 ∧
    reqBodyOverride.paramsOrganizationId = some "1" ∧
    reqBodyOverride.bodyOrganizationId = some "2" ∧
    tenantIsolationMiddleware stEx reqBodyOverride =
      MwOutcome.next (some orgBeta) (some "owner") ∧
    executeRoute stEx envOk reqBodyOverride =
      (RouteResult.queryResultJson 200
        { columns := ["?column?"], rows := [["1"]], rowCount := 1, error := none },
       [NetEv.connectOk, NetEv.query, NetEv.close]) ∧
    getDataSourceRoute stEx reqQueryOverride = RouteResult.dataSourceJson 200 dsPg :=
  ⟨rfl, rfl, rfl, rfl, rfl, rfl, rfl, rfl⟩

/-- C4: query errors are values, not exceptions.  `executeQuery` is a total
function (it cannot raise by construction), and on any failure of its inner
dispatch it returns a `QueryResult` with empty `columns`/`rows`, `rowCount` 0 and
`error` the underlying driver message; in the HTTP layer, a request that reaches
the execution step is always answered with status 200 carrying exactly that
`QueryResult`, whether or not it holds an error. -/
theorem query_errors_are_values :
    (∀ (env : Env) (ds : DataSource) (q e : String) (tr : List NetEv),
        executeQueryInner env ds q = (Except.error e, tr) →
        executeQuery env ds q =
          ({ columns := [], rows := [], rowCount := 0, error := some e }, tr)) ∧
    (∀ (st : Storage) (env : Env) (req : Request) (ds : DataSource)
        (org : Option Organization) (role : Option String),
        tenantIsolationMiddleware st req = MwOutcome.next org role →
        lookupDataSource st req = some ds →
        jsStrictNe ds.organizationId (urlOrgId req) = false →
        truthyStr req.bodyQuery = true →
        executeRoute st env req =
          (RouteResult.queryResultJson 200 (executeQuery env ds (req.bodyQuery.getD "")).fst,
           (executeQuery env ds (req.bodyQuery.getD "")).snd)) := by
  constructor
  · intro env ds q e tr h
    unfold executeQuery
    rw [h]
  · intro st env req ds org role hmw hds hmatch hq
    unfold executeRoute
    rw [hmw]
    dsimp only
    rw [hds]
    dsimp only
    rw [hmatch, hq]
    cases hx : executeQuery env ds (req.bodyQuery.getD "") with
    | mk r tr => rfl

theorem query_errors_are_values_witness :
    executeQuery envSyntaxErr dsPg "SELECT * FROM nonexistent_table" =
      ({ columns := [], rows := [], rowCount := 0,
         error := some "relation nonexistent_table does not exist" },
       [NetEv.connectOk, NetEv.query, NetEv.close]) ∧
    executeRoute stEx envSyntaxErr reqAuthExecute =
      (RouteResult.queryResultJson 200
         (executeQuery envSyntaxErr dsPg (reqAuthExecute.bodyQuery.getD "")).fst,
       (executeQuery envSyntaxErr dsPg (reqAuthExecute.bodyQuery.getD "")).snd) := by
  constructor
  · exact query_errors_are_values.1 envSyntaxErr dsPg "SELECT * FROM nonexistent_table"
      "relation nonexistent_table does not exist"
      [NetEv.connectOk, NetEv.query, NetEv.close] rfl
  · exact query_errors_are_values.2 stEx envSyntaxErr reqAuthExecute dsPg
      (some orgAcme) (some "owner") rfl rfl rfl rfl

/-- C8: introspection is atomic.  A successful `fetchPostgresSchema` implies the
table-list query and every per-table catalog query succeeded, and the result
covers every listed table; conversely, a failure of any per-table catalog query,
or of the table-list query itself, means no table list is returned at all (no
partial result — the call surfaces a raised error). -/
theorem introspection_atomicity (env : PgEnv) (ds : DataSource) :
    (∀ ts : List TableSchema, (fetchPostgresSchema env ds).fst = Except.ok ts →
        ∃ names, env.tablesQuery = Except.ok names ∧ ts.length = names.length ∧
          ∀ t ∈ names, ∃ rows, env.columnsQuery t = Except.ok rows) ∧
    (∀ (names : List String) (t e : String),
        env.tablesQuery = Except.ok names → t ∈ names →
        env.columnsQuery t = Except.error e →
        exceptIsOk (fetchPostgresSchema env ds).fst = false) ∧
    (∀ e : String, env.tablesQuery = Except.error e →
        exceptIsOk (fetchPostgresSchema env ds).fst = false) := by
  refine ⟨?_, ?_, ?_⟩
  · intro ts h
    unfold fetchPostgresSchema at h
    cases hc : env.connect with
    | error e => rw [hc] at h; dsimp only at h; simp at h
    | ok u =>
      rw [hc] at h
      dsimp only at h
      cases ht : env.tablesQuery with
      | error e => rw [ht] at h; dsimp only at h; simp at h
      | ok names =>
        rw [ht] at h
        dsimp only at h
        cases hrec : schemaLoop env.columnsQuery pgColumnOfRow names with
        | mk res tr =>
          rw [hrec] at h
          dsimp only at h
          rw [h] at hrec
          obtain ⟨hlen, hall⟩ :=
            schemaLoop_ok_spec env.columnsQuery pgColumnOfRow names ts tr hrec
          exact ⟨names, rfl, hlen, hall⟩
  · intro names t e htab hmem hcol
    unfold fetchPostgresSchema
    cases hc : env.connect with
    | error e2 => dsimp only; rfl
    | ok u =>
      dsimp only
      rw [htab]
      dsimp only
      cases hrec : schemaLoop env.columnsQuery pgColumnOfRow names with
      | mk res tr =>
        dsimp only
        have hloop := schemaLoop_err_spec env.columnsQuery pgColumnOfRow names t e hmem hcol
        rw [hrec] at hloop
        exact hloop
  · intro e htab
    unfold fetchPostgresSchema
    cases hc : env.connect with
    | error e2 => dsimp only; rfl
    | ok u =>
      dsimp only
      rw [htab]
      rfl

theorem introspection_atomicity_witness :
    (∃ names, ordersEnv.tablesQuery = Except.ok names ∧
        ([ordersExpected].length = names.length) ∧
        ∀ t ∈ names, ∃ rows, ordersEnv.columnsQuery t = Except.ok rows) ∧
    exceptIsOk (fetchPostgresSchema pgEnvColFail dsPg).fst = false ∧
    exceptIsOk (fetchPostgresSchema pgEnvTablesFail dsPg).fst = false := by
  refine ⟨?_, ?_, ?_⟩
  · exact (introspection_atomicity ordersEnv dsPg).1 [ordersExpected] rfl
  · exact (introspection_atomicity pgEnvColFail dsPg).2.1 ["users", "orders"] "orders"
      "permission denied for table orders" rfl (by decide) rfl
  · exact (introspection_atomicity pgEnvTablesFail dsPg).2.2 "catalog is unavailable" rfl

/-- C9: introspection shape.  Each normalized column carries the catalog row's
name, declared type, nullability (`is_nullable = YES`), primary-key flag and
foreign-key flag; `references` is populated exactly when the foreign-key flag is
set; the column sequence preserves the catalog query's row order (which the
embedded SQL sorts by ordinal position) with one column per row; a single column
may carry both key flags at once; and the `orders(id PK, customer_id FK ->
customers.id, total)` example yields the expected three columns in declared
order. -/
theorem introspection_shape :
    (∀ row : CatalogRow,
        (pgColumnOfRow row).name = row.column_name ∧
        (pgColumnOfRow row).type = row.data_type ∧
        (pgColumnOfRow row).nullable = (row.is_nullable == "YES") ∧
        (pgColumnOfRow row).isPrimaryKey = row.is_primary_key ∧
        (pgColumnOfRow row).isForeignKey = row.is_foreign_key ∧
        (pgColumnOfRow row).references.isSome = row.is_foreign_key) ∧
    (∀ rows : List CatalogRow,
        (rows.map pgColumnOfRow).map SchemaColumn.name = rows.map CatalogRow.column_name ∧
        (rows.map pgColumnOfRow).length = rows.length) ∧
    (pgColumnOfRow compositeKeyRow).isPrimaryKey = true ∧
    (pgColumnOfRow compositeKeyRow).isForeignKey = true ∧
    (fetchPostgresSchema ordersEnv dsPg).fst = Except.ok [ordersExpected] ∧
    (pgColumnOfRow ordersCustomerRow).references =
      some { table := "customers", column := "id" } := by
  refine ⟨?_, ?_, rfl, rfl, rfl, rfl⟩
  · intro row
    refine ⟨rfl, rfl, rfl, rfl, rfl, ?_⟩
    unfold pgColumnOfRow
    cases hfk : row.is_foreign_key <;> simp [hfk]
  · intro rows
    constructor
    · rw [List.map_map]
      rfl
    · simp

end InsightIQ
